import Mathlib

/-!
Shallow embedding of `pyreportjasper/jasperpy.py` (class `JasperPy`).

Python dictionaries are modelled as association lists over a small value
type `PyVal`; calls into the foreign (Java) engine and runtime are modelled
as events appended to a trace, with their success or failure supplied by
explicit oracle structures (`CompileEnv`, `ProcEnv`, `JEnv`), since the
engine itself is an external collaborator.  Every raise site of the source
has its own `PyErr` constructor; the `except Exception` handlers of the
source correspond to the wrapping constructors `PyErr.wrapped`
(`NameError('Error: %s')`) and `PyErr.errorRequest`
(`NameError('Error request: %s')`).
-/

namespace JasperPyModel

/-- Model of a Python value as stored in the caller-supplied dictionaries.
`dict` covers the dictionary-typed values (`url_params`, `url_data`,
`url_header`); `pynone` covers `None` and any other non-string,
non-integer, non-dict value. -/
inductive PyVal where
  | str (s : String)
  | int (n : Int)
  | dict (entries : List (String × String))
  | pynone
deriving DecidableEq, Repr

/-- A Python dict, as an association list (keys unique in any real dict). -/
abbrev PyDict := List (String × PyVal)

/-- `d[k]` as an optional lookup (first matching key). -/
def dget (d : PyDict) (k : String) : Option PyVal :=
  (d.find? (fun p => p.1 == k)).map Prod.snd

/-- Python `k in d`. -/
def dhas (d : PyDict) (k : String) : Bool :=
  (dget d k).isSome

/-- Whether the first character list starts the second one. -/
def chStarts : List Char → List Char → Bool
  | [], _ => true
  | _ :: _, [] => false
  | a :: as, b :: bs => a == b && chStarts as bs

/-- Whether the first character list occurs inside the second one. -/
def chSub : List Char → List Char → Bool
  | n, [] => n.isEmpty
  | n, c :: h => chStarts n (c :: h) || chSub n (h)

/-- Python string membership `needle in hay` (substring test). -/
def pyStrIn (needle hay : String) : Bool :=
  chSub needle.toList hay.toList

def isDigitChar (c : Char) : Bool :=
  '0' ≤ c && c ≤ '9'

def digitsValAux : List Char → Nat → Option Nat
  | [], acc => some acc
  | c :: cs, acc =>
    if isDigitChar c then digitsValAux cs (acc * 10 + (c.toNat - '0'.toNat)) else none

/-- Value of a nonempty all-digit character list. -/
def digitsVal : List Char → Option Nat
  | [] => none
  | cs => digitsValAux cs 0

/-- Python `int(s)` on a string: surrounding whitespace stripped, one
optional sign, then decimal digits; anything else raises `ValueError`
(modelled as `none`).  Exotic forms (digit-group underscores, non-ASCII
digits) are out of scope of the claims. -/
def pyParseInt (s : String) : Option Int :=
  let t := ((s.toList.dropWhile Char.isWhitespace).reverse.dropWhile
      Char.isWhitespace).reverse
  match t with
  | '-' :: rest => (digitsVal rest).map (fun n => -(n : Int))
  | '+' :: rest => (digitsVal rest).map (fun n => (n : Int))
  | rest => (digitsVal rest).map (fun n => (n : Int))

/-- Python `int(v)` on an arbitrary value: integers pass through, strings
are parsed, any other type raises `TypeError` (modelled as `none`). -/
def pyIntOf : PyVal → Option Int
  | .int n => some n
  | .str s => pyParseInt s
  | _ => none

/-- Split a character list at every occurrence of `sep`. -/
def splitOnCharAux (sep : Char) : List Char → List Char → List (List Char)
  | [], acc => [acc.reverse]
  | c :: cs, acc =>
    if c = sep then acc.reverse :: splitOnCharAux sep cs []
    else splitOnCharAux sep cs (c :: acc)

/-- Python `s.split(sep)` for a one-character separator (the source only
splits on `'/'` and `'.'`): always a nonempty list, `''` giving `['']`. -/
def pySplitChar (s : String) (sep : Char) : List String :=
  (splitOnCharAux sep s.toList []).map (fun l => String.mk l)

/-- Join a list of strings with a separator between the elements. -/
def joinSep (sep : String) : List String → String
  | [] => ""
  | [a] => a
  | a :: rest => a ++ sep ++ joinSep sep rest

/-- `os.path.dirname`, modelled for the relative POSIX-style paths the
claims use (no trailing slash): everything before the last `/`, or the
empty string when there is no `/`. -/
def pyDirname (p : String) : String :=
  let parts := pySplitChar p '/'
  joinSep "/" parts.dropLast

/-- `os.path.join a b`, modelled for a relative second component and a
first component without trailing slash. -/
def pyJoin (a b : String) : String :=
  if a = "" then b else a ++ "/" ++ b

/-- `de.cenote.jasperstarter.types.DsType` constants used by the source. -/
inductive DsType where
  | dnone
  | postgres
  | mysql
  | oracle
  | generic
  | csv
  | xml
  | json
  | jsonql
deriving DecidableEq, Repr

/-- One constructor per raise site of the source, plus the two wrapping
handlers.  The spec's error taxonomy maps onto these as follows:
InvalidArgument = `noInputFile`, `invalidMethodRequest`, `intParseFailed`;
InvalidFormat = `invalidFormat`, `invalidFormatOutput`, `formatListNotList`;
MissingDataSource = `noDataSources`; UnsupportedDataSource =
`invalidJsonInput`; RemoteFetchError = `requestStatusCode` and anything
carried by `errorRequest`; CompileError / ProcessError = `wrapped`;
NotImplemented = `notImplementedFormat`. -/
inductive PyErr where
  | noInputFile
  | invalidFormat
  | invalidFormatOutput
  | formatListNotList
  | noDataSources
  | invalidMethodRequest
  | urlMethodNotStr
  | keyError (k : String)
  | unboundLocal (name : String)
  | requestStatusCode (code : Nat)
  | sendFailed
  | jsonDecodeFailed
  | intParseFailed (v : PyVal)
  | notImplementedFormat (fmt : String)
  | engineError (msg : String)
  | invalidJsonInput
  | errorRequest (e : PyErr)
  | wrapped (e : PyErr)
deriving DecidableEq, Repr

/-- Stream-handle state of the foreign runtime (`java.lang.System`):
current `System.in` and `System.out` handles, and a counter supplying
fresh handles for newly constructed streams. -/
structure Sys where
  inH : Nat
  outH : Nat
  nextH : Nat
deriving DecidableEq, Repr

/-- The foreign `de.cenote.jasperstarter.Config` object, recording the
setter calls the wrapper makes.  A field is `none` when the wrapper never
called the corresponding setter, so the foreign object's own default is
still in place. -/
structure Config where
  input : Option String
  localeC : Option String
  output : Option String
  outputFormats : Option (List String)
  params : Option (List String)
  dbType : Option DsType
  dbUser : Option PyVal
  dbPasswd : Option PyVal
  dbHost : Option PyVal
  dbName : Option PyVal
  dbPort : Option Int
  jdbcDir : Option PyVal
  dbSid : Option PyVal
  xmlXpath : Option PyVal
  dataFile : Option PyVal
  jsonQuery : Option PyVal
  jsonqlQuery : Option PyVal
  csvFirstRow : Option Bool
  csvColumns : Option PyVal
  csvRecordDel : Option PyVal
  csvFieldDel : Option PyVal
  csvCharset : Option PyVal
deriving DecidableEq, Repr

/-- `jvConfig()`: a fresh configuration, nothing set yet. -/
def Config.init : Config :=
  { input := none, localeC := none, output := none, outputFormats := none,
    params := none, dbType := none, dbUser := none, dbPasswd := none,
    dbHost := none, dbName := none, dbPort := none, jdbcDir := none,
    dbSid := none, xmlXpath := none, dataFile := none, jsonQuery := none,
    jsonqlQuery := none, csvFirstRow := none, csvColumns := none,
    csvRecordDel := none, csvFieldDel := none, csvCharset := none }

/-- Observable calls into the foreign runtime / engine / network. -/
inductive Ev where
  | setOut (h : Nat)
  | setIn (h : Nat)
  | flushOut (h : Nat)
  | reportFill
  | reportExport (fmt : String)
  | compileToFile (input : String)
  | classpathAdd (p : String)
  | httpSend (method : String) (url dataBody headers params : PyVal)
  | writeFile (path content : String)
  | promptParams
  | paramPut (key : String)
  | getJsonQLDataSource
  | fillReport (fileOut : String)
  | exportPdfFile (out : String)
  | reportNew (config : Config)
deriving DecidableEq, Repr

/-- Program state threaded through the embedding: stream handles plus a
trace of foreign calls (most recent first). -/
structure St where
  sys : Sys
  trace : List Ev
deriving DecidableEq, Repr

def emit (e : Ev) (st : St) : St :=
  { st with trace := e :: st.trace }

/-- `JasperPy._FORMATS` (a real tuple in the source). -/
def FORMATS : List String :=
  ["pdf", "rtf", "xls", "xlsx", "docx", "odt", "ods", "pptx", "csv",
   "html", "xhtml", "xml", "jrprint"]

/-- `JasperPy._FORMATS_JSON`.  In the source this is `('pdf')`, which is
the STRING `'pdf'` (not a one-element tuple), so the membership test
`key not in self._FORMATS_JSON` is Python substring membership. -/
def FORMATS_JSON : String := "pdf"

/-- `JasperPy._FORMATS_METHODS_REQUEST`. -/
def METHODS : List String := ["GET", "POST", "PUT"]

/-- `self.JDBC_FILE` (path relative to the package directory). -/
def JDBC_FILE : String := "jasperstarter/jdbc/postgresql.jar"

/-- Oracle for `compile`: whether the engine's `report.compileToFile()`
raises, and with what message. -/
structure CompileEnv where
  compileToFileFails : Option String

/-- `JasperPy.compile` (source lines 74-94).  Empty (falsy) report raises
`NameError('No input file!')` before the `try`.  Otherwise the inner
`try`/`finally` runs the engine compile and flushes `System.out` on both
exits; the outer `except` wraps any failure as `NameError('Error: %s')`. -/
def compileRun (report : String) (env : CompileEnv) (st : St) :
    St × Except PyErr Int :=
  if report = "" then (st, .error .noInputFile)
  else
    -- config = Config(); config.setInput(report);
    -- report = Report(config, File(config.getInput())); report.compileToFile()
    let st1 := emit (.compileToFile report) st
    let innerRes : Except PyErr Int :=
      match env.compileToFileFails with
      | some msg => .error (.engineError msg)
      | none => .ok 0
    let st2 := emit (.flushOut st1.sys.outH) st1
    match innerRes with
    | .ok n => (st2, .ok n)
    | .error e => (st2, .error (.wrapped e))

/-- Oracle for `process`: what the filesystem says about `resource`
(`os.path.isfile` / `os.path.isdir`, and the `glob` of `*.jar` files in
it), and whether the engine's `fill` and per-format `export*` calls
raise, and with what message. -/
structure ProcEnv where
  resourceIsFile : Bool
  resourceIsDir : Bool
  resourceJars : List String
  fillFails : Option String
  exportFails : String → Option String

/-- Source lines 134-152: the `db_connection['driver']` chain of
`process`.  A present but unrecognized driver value falls through every
branch without any `setDbType` call; an absent key takes the `else`
branch, which sets the `none` constant. -/
def processDriverMap (config : Config) (db : PyDict) : Config :=
  match dget db "driver" with
  | some v =>
    if v = .str "postgres" then { config with dbType := some .postgres }
    else if v = .str "mysql" then { config with dbType := some .mysql }
    else if v = .str "oracle" then { config with dbType := some .oracle }
    else if v = .str "generic" then { config with dbType := some .generic }
    else if v = .str "csv" then { config with dbType := some .csv }
    else if v = .str "xml" then { config with dbType := some .xml }
    else if v = .str "json" then { config with dbType := some .json }
    else if v = .str "jsonql" then { config with dbType := some .jsonql }
    else config
  | none => { config with dbType := some .dnone }

/-- `if key in d: c = f c d[key]`. -/
def setOptField (d : PyDict) (k : String) (f : Config → PyVal → Config)
    (c : Config) : Config :=
  match dget d k with
  | some v => f c v
  | none => c

/-- Source lines 170-201: the connection fields copied after `port`. -/
def processConnFieldsRest (c : Config) (db : PyDict) : Config :=
  let c := setOptField db "jdbc_dir" (fun c v => { c with jdbcDir := some v }) c
  let c := setOptField db "db_sid" (fun c v => { c with dbSid := some v }) c
  let c := setOptField db "xml_xpath" (fun c v => { c with xmlXpath := some v }) c
  let c := setOptField db "data_file" (fun c v => { c with dataFile := some v }) c
  let c := setOptField db "json_query" (fun c v => { c with jsonQuery := some v }) c
  let c := setOptField db "jsonql_query" (fun c v => { c with jsonqlQuery := some v }) c
  let c := if dhas db "csv_first_row" then { c with csvFirstRow := some true } else c
  let c := setOptField db "csv_columns" (fun c v => { c with csvColumns := some v }) c
  let c := setOptField db "csv_record_del" (fun c v => { c with csvRecordDel := some v }) c
  let c := setOptField db "csv_field_del" (fun c v => { c with csvFieldDel := some v }) c
  let c := setOptField db "csv_charset" (fun c v => { c with csvCharset := some v }) c
  c

/-- Source lines 154-201: the `if len(db_connection) > 0` body.  The only
raise site is `int(db_connection['port'])` on a non-numeric value. -/
def processConnFields (c : Config) (db : PyDict) : Except PyErr Config :=
  let c := setOptField db "username" (fun c v => { c with dbUser := some v }) c
  let c := setOptField db "password" (fun c v => { c with dbPasswd := some v }) c
  let c := setOptField db "host" (fun c v => { c with dbHost := some v }) c
  let c := setOptField db "database" (fun c v => { c with dbName := some v }) c
  match dget db "port" with
  | some v =>
    match pyIntOf v with
    | some n => .ok (processConnFieldsRest { c with dbPort := some n } db)
    | none => .error (.intParseFailed v)
  | none => .ok (processConnFieldsRest c db)

/-- One engine export call `report.export<Fmt>()`: the call is made (event
emitted), then it either returns or raises per the oracle. -/
def doExport (env : ProcEnv) (fmt : String) (st : St) : St × Except PyErr Unit :=
  let st := emit (.reportExport fmt) st
  match env.exportFails fmt with
  | some m => (st, .error (.engineError m))
  | none => (st, .ok ())

/-- Source lines 224-251: the per-format dispatch chain of `process`. -/
def exportOne (env : ProcEnv) (f : String) (st : St) : St × Except PyErr Unit :=
  if f = "pdf" then doExport env "pdf" st
  else if f = "rtf" then doExport env "rtf" st
  else if f = "xls" then doExport env "xls" st
  else if f = "xlsx" then doExport env "xlsx" st
  else if f = "docx" then doExport env "docx" st
  else if f = "odt" then doExport env "odt" st
  else if f = "ods" then doExport env "ods" st
  else if f = "pptx" then doExport env "pptx" st
  else if f = "csv" then doExport env "csv" st
  else if f = "html" then doExport env "html" st
  else if f = "xhtml" then doExport env "xhtml" st
  else if f = "xml" then doExport env "xml" st
  else if f = "jrprint" then doExport env "jrprint" st
  else (st, .error (.notImplementedFormat f))

/-- Source lines 223-251: `for format_out in format_list`, aborting on the
first raising export. -/
def exportLoop (env : ProcEnv) (fl : List String) (st : St) :
    St × Except PyErr Unit :=
  match fl with
  | [] => (st, .ok ())
  | f :: rest =>
    match exportOne env f st with
    | (st, .ok _) => exportLoop env rest st
    | (st, .error e) => (st, .error e)

/-- Source lines 216-255 of `process`: save `System.in`/`System.out`,
redirect `System.out` to a fresh `PrintStream` over a fresh
`ByteArrayOutputStream`, run `fill` and the export loop, and in the
`finally` flush the (still redirected) output stream and restore both
saved handles — on the success path and on every raising path alike. -/
def processPhase (env : ProcEnv) (fl : List String) (st : St) :
    St × Except PyErr Unit :=
  let savedStdin := st.sys.inH
  let savedStdout := st.sys.outH
  let tmpStdout := st.sys.nextH
  let st1 : St :=
    { sys := { inH := st.sys.inH, outH := tmpStdout, nextH := st.sys.nextH + 1 },
      trace := Ev.setOut tmpStdout :: st.trace }
  let fillStep := emit Ev.reportFill st1
  let phase : St × Except PyErr Unit :=
    match env.fillFails with
    | some m => (fillStep, .error (.engineError m))
    | none => exportLoop env fl fillStep
  match phase with
  | (st2, r) =>
    let st3 : St :=
      { sys := { inH := savedStdin, outH := savedStdout, nextH := st2.sys.nextH },
        trace := Ev.setOut savedStdout :: Ev.setIn savedStdin ::
          Ev.flushOut st2.sys.outH :: st2.trace }
    (st3, r)

/-- Lines 256-262 of `process`: `return 0` on success; the outer
`except Exception` wraps a raising phase as `NameError('Error: %s')`. -/
def finishProc (p : St × Except PyErr Unit) : St × Except PyErr Int :=
  match p with
  | (st, .ok _) => (st, .ok 0)
  | (st, .error e) => (st, .error (.wrapped e))

/-- Sequencing under the outer `except Exception` handler of
`process_json`: a step that raises aborts the `try` body and its error is
wrapped as `NameError('Error: %s')`; otherwise the rest of the body
runs. -/
def wrapStep {α β : Type} (p : St × Except PyErr α)
    (k : St → α → St × Except PyErr β) : St × Except PyErr β :=
  match p with
  | (st, .ok a) => k st a
  | (st, .error e) => (st, .error (.wrapped e))

/-- Source lines 205-211: resource handling of `process` (file: add the
file; directory: add the directory and every jar inside it). -/
def procResourceAdds (resource : String) (env : ProcEnv) (st : St) : St :=
  if env.resourceIsFile then emit (.classpathAdd resource) st
  else if env.resourceIsDir then
    env.resourceJars.foldl (fun s j => emit (.classpathAdd j) s)
      (emit (.classpathAdd resource) st)
  else st

/-- Source lines 124-201 of `process`: populate the configuration
object — input, locale, output, formats, `"key=value"` parameters, the
driver chain, and (when the connection dictionary is non-empty) the
connection fields.  The only raise site is `int(db_connection['port'])`
inside `processConnFields`. -/
def processBuildConfig (input_file output_file : String) (fl : List String)
    (parameters : List (String × String)) (db_connection : PyDict)
    (locale : String) : Except PyErr Config :=
  let config := { Config.init with
    input := some input_file, localeC := some locale,
    output := some (if output_file ≠ "" then output_file
      else pyDirname input_file),
    outputFormats := some fl }
  let config := if parameters.length > 0 then
      { config with
        params := some (parameters.map (fun p => p.1 ++ "=" ++ p.2)) }
    else config
  let config := processDriverMap config db_connection
  if db_connection.length > 0 then processConnFields config db_connection
  else .ok config

/-- `JasperPy.process` (source lines 96-262).  `output_file` is falsy when
empty (`output_file=False` default); a non-list `format_list` is the
`none` argument.  Validation happens before the `try`, so those errors
are unwrapped; everything inside the `try` is wrapped by the outer
`except` as `NameError('Error: %s')`. -/
def process (input_file output_file : String) (format_list : Option (List String))
    (parameters : List (String × String)) (db_connection : PyDict)
    (locale resource : String) (env : ProcEnv) (st : St) :
    St × Except PyErr Int :=
  if input_file = "" then (st, .error .noInputFile)
  else
    match format_list with
    | none => (st, .error .formatListNotList)
    | some fl =>
      if fl.any (fun k => !(FORMATS.contains k)) then (st, .error .invalidFormat)
      else
        match processBuildConfig input_file output_file fl parameters
            db_connection locale with
        | .error e => (st, .error (.wrapped e))
        | .ok config2 =>
          let st := emit (.classpathAdd JDBC_FILE) st
          let st := procResourceAdds resource env st
          -- report = Report(config, File(config.getInput())): the engine
          -- receives the fully populated configuration here.
          let st := emit (.reportNew config2) st
          finishProc (processPhase env fl st)

/-- Oracle for `process_json`: filesystem answers about `resource`, the
scoped temporary directory's path, the HTTP collaborator (`none` =
`s.send` raises; `some code` = a response with that status code), the
result of `resp.json()` composed with `json.dumps` (`none` = the body is
not valid JSON), and the engine calls' outcomes. -/
structure JEnv where
  resourceIsFile : Bool
  resourceIsDir : Bool
  tmpDir : String
  sendResult : Option Nat
  jsonParse : Option String
  compileToFileFails : Option String
  hasAskFilter : Bool
  getJsonQLFails : Option String
  fillFails : Option String
  exportPdfFails : Option String

/-- Source lines 295-301: the `connection['driver']` chain of
`process_json`.  Only `json` and `jsonql` are recognized; a present but
unrecognized driver value makes no `setDbType` call, while an absent key
takes the `else` branch and sets the `none` constant. -/
def jsonDriverMap (config : Config) (connection : PyDict) : Config :=
  match dget connection "driver" with
  | some v =>
    if v = .str "json" then { config with dbType := some .json }
    else if v = .str "jsonql" then { config with dbType := some .jsonql }
    else config
  | none => { config with dbType := some .dnone }

/-- Source line 318: `PARAMS = connection['url_params'] if 'url_params'
in connection else {}`. -/
def paramsOf (connection : PyDict) : PyVal :=
  match dget connection "url_params" with
  | some v => v
  | none => .dict []

/-- Source line 320: `HEADER = connection['url_header'] if 'url_header'
in connection else {}`. -/
def hdrOf (connection : PyDict) : PyVal :=
  match dget connection "url_header" with
  | some v => v
  | none => .dict []

/-- Source line 319: `DATA = connection['url_data'] if 'url_data_post' in
connection else {}`.  The guard tests `url_data_post` but the value is
read from `url_data`, so a dict with `url_data_post` and no `url_data`
raises `KeyError('url_data')`. -/
def dataOf (connection : PyDict) : Except PyErr PyVal :=
  if dhas connection "url_data_post" then
    match dget connection "url_data" with
    | some v => .ok v
    | none => .error (.keyError "url_data")
  else .ok (.dict [])

/-- Source lines 311-339: the body of the `url_file` branch's inner
`try`, before its `except` wraps failures (see `fetchBlock`). -/
def fetchCore (connection : PyDict) (env : JEnv) (config : Config) (st : St) :
    St × Except PyErr Config :=
  match dget connection "url_method" with
  | none => (st, .error (.keyError "url_method"))
  | some mv =>
    match mv with
    | .str m =>
      if !(METHODS.contains m) then (st, .error .invalidMethodRequest)
      else
        match dataOf connection with
        | .error e => (st, .error e)
        | .ok bodyData =>
          -- `if 'url_method' in connection:` is always true here, since
          -- `connection['url_method']` was already read above.
          match dget connection "url_file" with
          | none => (st, .error (.keyError "url_file"))
          | some url =>
            let st := emit (.httpSend m url bodyData (hdrOf connection)
              (paramsOf connection)) st
            match env.sendResult with
            | none => (st, .error .sendFailed)
            | some code =>
              if code = 200 then
                match env.jsonParse with
                | none => (st, .error .jsonDecodeFailed)
                | some body =>
                  let file_json := pyJoin env.tmpDir "data_report.json"
                  let st := emit (.writeFile file_json body) st
                  (st, .ok { config with dataFile := some (.str file_json) })
              else (st, .error (.requestStatusCode code))
    | _ => (st, .error .urlMethodNotStr)

/-- Source lines 310-341: the whole `url_file` branch; its `except`
(line 340) wraps every failure as `NameError('Error request: %s')`. -/
def fetchBlock (connection : PyDict) (env : JEnv) (config : Config) (st : St) :
    St × Except PyErr Config :=
  match fetchCore connection env config st with
  | (st, .ok c) => (st, .ok c)
  | (st, .error e) => (st, .error (.errorRequest e))

/-- Source lines 303-347: the `if len(connection) > 0` block of
`process_json` (data-source presence check, `data_file`, `url_file`
fetch, query strings). -/
def jsonConnBlock (connection : PyDict) (env : JEnv) (config : Config) (st : St) :
    St × Except PyErr Config :=
  if connection.length > 0 then
    if !(dhas connection "data_file") && !(dhas connection "url_file") then
      (st, .error .noDataSources)
    else
      let config := setOptField connection "data_file"
        (fun c v => { c with dataFile := some v }) config
      match (if dhas connection "url_file" then
          fetchBlock connection env config st else (st, .ok config)) with
      | (st, .error e) => (st, .error e)
      | (st, .ok config) =>
        let config := setOptField connection "json_query"
          (fun c v => { c with jsonQuery := some v }) config
        let config := setOptField connection "jsonql_query"
          (fun c v => { c with jsonqlQuery := some v }) config
        (st, .ok config)
  else (st, .ok config)

/-- Source lines 349-352: resource handling of `process_json` (file: add
its containing directory; directory: add it; nothing else). -/
def jsonResourceAdds (resource : String) (env : JEnv) (st : St) : St :=
  if env.resourceIsFile then emit (.classpathAdd (pyDirname resource)) st
  else if env.resourceIsDir then emit (.classpathAdd resource) st
  else st

/-- Source lines 356-385: prompt-for-params, then the fill `try`.  Only a
configuration whose data-source type was set to `jsonql` reaches the
JSONQL data source, `fillReport` and `exportReportToPdfFile`; every other
type takes the `else` branch and raises `NameError('Invalid json
input!')`.  The inner `except` (line 384) wraps as
`NameError('Error: %s')`.  `fileOut` is `file_out`, a local that the
source assigns only when `output_file` was not given; using it while
unbound raises `UnboundLocalError`. -/
def jsonFillPhase (config : Config) (connection : PyDict)
    (fileOut : Option String) (outputFile : String) (env : JEnv) (st : St) :
    St × Except PyErr Unit :=
  let st := if env.hasAskFilter then emit .promptParams st else st
  let inner : St × Except PyErr Unit :=
    if config.dbType = some DsType.jsonql then
      let st := emit .getJsonQLDataSource st
      match env.getJsonQLFails with
      | some m => (st, .error (.engineError m))
      | none =>
        let st := if dhas connection "json_locale" then
            emit (.paramPut "JSON_LOCALE") st else st
        let st := if dhas connection "json_date_pattern" then
            emit (.paramPut "JSON_DATE_PATTERN") st else st
        let st := if dhas connection "json_number_pattern" then
            emit (.paramPut "JSON_NUMBER_PATTERN") st else st
        let st := if dhas connection "json_time_zone" then
            emit (.paramPut "JSON_TIME_ZONE") st else st
        match fileOut with
        | none => (st, .error (.unboundLocal "file_out"))
        | some fo =>
          let st := emit (.fillReport fo) st
          match env.fillFails with
          | some m => (st, .error (.engineError m))
          | none =>
            let st := emit (.exportPdfFile outputFile) st
            match env.exportPdfFails with
            | some m => (st, .error (.engineError m))
            | none => (st, .ok ())
    else (st, .error .invalidJsonInput)
  match inner with
  | (st, .ok _) => (st, .ok ())
  | (st, .error e) => (st, .error (.wrapped e))

/-- Source lines 283-291: output handling of `process_json`.  With an
explicit `output_file` only `setOutput` is called and the local
`file_out` is left unassigned (modelled as `none`); otherwise the
compiled-template path (`file_out`) and the output PDF path are derived
from the input file's base name, and the output directory is the input's
directory.  Returns (configuration, `file_out`, effective
`output_file`). -/
def jsonOutputStep (config : Config) (input_file output_file : String) :
    Config × Option String × String :=
  if output_file ≠ "" then
    ({ config with output := some output_file }, none, output_file)
  else
    let list_patch := pySplitChar input_file '/'
    let list_name_extesion := pySplitChar (list_patch.getLastD "") '.'
    let name_file := list_name_extesion.headD ""
    let file_out := pyJoin (pyDirname input_file) (name_file ++ ".jasper")
    let out := pyJoin (pyDirname input_file) (name_file ++ ".pdf")
    ({ config with output := some (pyDirname input_file) }, some file_out, out)

/-- `JasperPy.process_json` (source lines 265-389).  Runs inside a scoped
temporary directory (`env.tmpDir`).  Validation (input required, format
substring test against the string `'pdf'`) happens before the `try`;
everything inside the `try` is wrapped by the outer `except` (line 388)
as `NameError('Error: %s')`, including errors already wrapped by the
inner handlers. -/
def process_json (input_file output_file : String)
    (format_list : Option (List String)) (parameters : List (String × String))
    (connection : PyDict) (locale resource : String) (env : JEnv) (st : St) :
    St × Except PyErr Int :=
  if input_file = "" then (st, .error .noInputFile)
  else
    match format_list with
    | none => (st, .error .formatListNotList)
    | some fl =>
      if fl.any (fun k => !(pyStrIn k FORMATS_JSON)) then
        (st, .error .invalidFormatOutput)
      else
        let config := { Config.init with input := some input_file }
        let config := if locale ≠ "" then { config with localeC := some locale }
          else config
        let config2 := (jsonOutputStep config input_file output_file).1
        let fileOut := (jsonOutputStep config input_file output_file).2.1
        let outFile := (jsonOutputStep config input_file output_file).2.2
        let config2 := { config2 with outputFormats := some fl }
        let config2 := if parameters.length > 0 then
            { config2 with
              params := some (parameters.map (fun p => p.1 ++ "=" ++ p.2)) }
          else config2
        let config2 := jsonDriverMap config2 connection
        wrapStep (jsonConnBlock connection env config2 st) (fun st config3 =>
          let st := jsonResourceAdds resource env st
          -- report = Report(config, File(config.getInput()))
          wrapStep (compileRun input_file ⟨env.compileToFileFails⟩ st) (fun st _ =>
            wrapStep (jsonFillPhase config3 connection fileOut outFile env st)
              (fun st _ => (st, .ok 0))))

/-- A starting runtime state for concrete runs: `System.in` handle 0,
`System.out` handle 1, empty trace. -/
def st0 : St := { sys := { inH := 0, outH := 1, nextH := 2 }, trace := [] }

/-- A benign oracle for `process_json`: no resource on disk, HTTP answers
200 with a JSON body, and every engine call succeeds. -/
def jenvOk : JEnv :=
  { resourceIsFile := false, resourceIsDir := false, tmpDir := "/tmp/t",
    sendResult := some 200, jsonParse := some "[1]",
    compileToFileFails := none, hasAskFilter := false,
    getJsonQLFails := none, fillFails := none, exportPdfFails := none }

/-- `jenvOk` with the HTTP collaborator answering status 404. -/
def jenv404 : JEnv := { jenvOk with sendResult := some 404 }

/-- A benign oracle for `process`: no resource on disk, every engine call
succeeds. -/
def penvOk : ProcEnv :=
  { resourceIsFile := false, resourceIsDir := false, resourceJars := [],
    fillFails := none, exportFails := fun _ => none }

/-- A jsonql connection with a local data file. -/
def connJsonql : PyDict :=
  [("driver", .str "jsonql"), ("data_file", .str "d.json")]

/-- A connection fetching its data over HTTP with method GET. -/
def connUrl : PyDict :=
  [("driver", .str "jsonql"), ("url_file", .str "http://x"),
   ("url_method", .str "GET")]

theorem dget_pos (d : PyDict) (k : String) (v : PyVal)
    (h : dget d k = some v) : 0 < d.length := by
  cases d with
  | nil => simp [dget] at h
  | cons a l => simp

theorem emit_sys (e : Ev) (st : St) : (emit e st).sys = st.sys := rfl

theorem foldl_emit_sys (l : List String) (st : St) :
    (l.foldl (fun s j => emit (Ev.classpathAdd j) s) st).sys = st.sys := by
  induction l generalizing st with
  | nil => rfl
  | cons a t ih => simpa [emit] using ih (emit (Ev.classpathAdd a) st)

theorem procResourceAdds_sys (r : String) (env : ProcEnv) (st : St) :
    (procResourceAdds r env st).sys = st.sys := by
  unfold procResourceAdds
  split
  · rfl
  · split
    · exact foldl_emit_sys _ _
    · rfl

theorem finishProc_fst (p : St × Except PyErr Unit) : (finishProc p).1 = p.1 := by
  rcases p with ⟨s, r⟩
  cases r <;> rfl

theorem finishProc_cases (p : St × Except PyErr Unit) :
    (finishProc p).2 = .ok 0 ∨ ∃ e, (finishProc p).2 = .error (.wrapped e) := by
  rcases p with ⟨s, r⟩
  cases r with
  | ok u => exact Or.inl rfl
  | error e => exact Or.inr ⟨_, rfl⟩

theorem wrapStep_ok {α β : Type} (p : St × Except PyErr α)
    (k : St → α → St × Except PyErr β) (a : α) (h : p.2 = .ok a) :
    wrapStep p k = k p.1 a := by
  rcases p with ⟨s, r⟩
  cases r with
  | ok b => cases h; rfl
  | error e => cases h

theorem wrapStep_err {α β : Type} (p : St × Except PyErr α)
    (k : St → α → St × Except PyErr β) (e : PyErr) (h : p.2 = .error e) :
    wrapStep p k = (p.1, .error (.wrapped e)) := by
  rcases p with ⟨s, r⟩
  cases r with
  | ok b => cases h
  | error e2 => cases h; rfl

theorem doExport_shape (env : ProcEnv) (f : String) (st : St) :
    ∃ r, doExport env f st = (emit (Ev.reportExport f) st, r) := by
  unfold doExport
  cases env.exportFails f <;> exact ⟨_, rfl⟩


theorem exportOne_shape (env : ProcEnv) (f : String) (st : St) :
    exportOne env f st = (st, .error (.notImplementedFormat f)) ∨
    ∃ g r, exportOne env f st = (emit (Ev.reportExport g) st, r) := by
  have hdo : ∀ g : String, (doExport env g st = (st, .error (.notImplementedFormat f)) ∨
      ∃ g2 r, doExport env g st = (emit (Ev.reportExport g2) st, r)) := by
    intro g
    obtain ⟨r, h⟩ := doExport_shape env g st
    exact Or.inr ⟨g, r, h⟩
  unfold exportOne
  by_cases h1 : f = "pdf"
  · rw [if_pos h1]
    exact hdo _
  rw [if_neg h1]
  by_cases h2 : f = "rtf"
  · rw [if_pos h2]
    exact hdo _
  rw [if_neg h2]
  by_cases h3 : f = "xls"
  · rw [if_pos h3]
    exact hdo _
  rw [if_neg h3]
  by_cases h4 : f = "xlsx"
  · rw [if_pos h4]
    exact hdo _
  rw [if_neg h4]
  by_cases h5 : f = "docx"
  · rw [if_pos h5]
    exact hdo _
  rw [if_neg h5]
  by_cases h6 : f = "odt"
  · rw [if_pos h6]
    exact hdo _
  rw [if_neg h6]
  by_cases h7 : f = "ods"
  · rw [if_pos h7]
    exact hdo _
  rw [if_neg h7]
  by_cases h8 : f = "pptx"
  · rw [if_pos h8]
    exact hdo _
  rw [if_neg h8]
  by_cases h9 : f = "csv"
  · rw [if_pos h9]
    exact hdo _
  rw [if_neg h9]
  by_cases h10 : f = "html"
  · rw [if_pos h10]
    exact hdo _
  rw [if_neg h10]
  by_cases h11 : f = "xhtml"
  · rw [if_pos h11]
    exact hdo _
  rw [if_neg h11]
  by_cases h12 : f = "xml"
  · rw [if_pos h12]
    exact hdo _
  rw [if_neg h12]
  by_cases h13 : f = "jrprint"
  · rw [if_pos h13]
    exact hdo _
  rw [if_neg h13]
  left
  rfl

theorem exportLoop_spec (env : ProcEnv) (fl : List String) (st : St) :
    (exportLoop env fl st).1.sys = st.sys ∧
    ∃ mid, (exportLoop env fl st).1.trace = mid ++ st.trace ∧
      ∀ e ∈ mid, ∃ f, e = Ev.reportExport f := by
  induction fl generalizing st with
  | nil => exact ⟨rfl, [], rfl, by simp⟩
  | cons f rest ih =>
    rcases exportOne_shape env f st with h | ⟨g, r, h⟩
    · unfold exportLoop
      rw [h]
      exact ⟨rfl, [], rfl, by simp⟩
    · unfold exportLoop
      rw [h]
      cases r with
      | ok u =>
        obtain ⟨hsys, mid, htr, hmem⟩ := ih (emit (Ev.reportExport g) st)
        refine ⟨by simpa [emit] using hsys, mid ++ [Ev.reportExport g], ?_, ?_⟩
        · rw [htr]
          simp [emit]
        · intro e he
          rcases List.mem_append.mp he with h1 | h1
          · exact hmem e h1
          · simp at h1
            exact ⟨g, h1⟩
      | error e =>
        exact ⟨rfl, [Ev.reportExport g], by simp [emit], by simp⟩

theorem processPhase_spec (env : ProcEnv) (fl : List String) (st : St) :
    (processPhase env fl st).1.sys.inH = st.sys.inH ∧
    (processPhase env fl st).1.sys.outH = st.sys.outH ∧
    ∃ mid, (processPhase env fl st).1.trace =
        Ev.setOut st.sys.outH :: Ev.setIn st.sys.inH ::
          Ev.flushOut st.sys.nextH :: (mid ++ Ev.setOut st.sys.nextH :: st.trace) ∧
      ∀ e ∈ mid, e = Ev.reportFill ∨ ∃ f, e = Ev.reportExport f := by
  obtain ⟨hsys, mid, htr, hmem⟩ := exportLoop_spec env fl
    (emit Ev.reportFill
      { sys := { inH := st.sys.inH, outH := st.sys.nextH, nextH := st.sys.nextH + 1 },
        trace := Ev.setOut st.sys.nextH :: st.trace })
  unfold processPhase
  cases h : env.fillFails with
  | some m =>
    exact ⟨rfl, rfl, [Ev.reportFill], by simp [emit], by simp⟩
  | none =>
    refine ⟨?_, ?_, mid ++ [Ev.reportFill], ?_, ?_⟩
    · simp only [emit] at hsys
      simp [hsys]
    · simp only [emit] at hsys
      simp [hsys]
    · simp only [emit]
      simp only [emit] at hsys htr
      rw [hsys, htr]
      simp
    · intro e he
      rcases List.mem_append.mp he with h1 | h1
      · rcases hmem e h1 with ⟨f2, hf⟩
        exact Or.inr ⟨f2, hf⟩
      · simp at h1
        exact Or.inl h1

theorem process_after_validation (input_file output_file : String)
    (fl : List String) (parameters : List (String × String)) (db : PyDict)
    (locale resource : String) (env : ProcEnv) (st : St)
    (hin : input_file ≠ "")
    (hfl : (fl.any (fun k => !(FORMATS.contains k))) = false) :
    (process input_file output_file (some fl) parameters db locale resource
        env st).2 = .ok 0 ∨
    ∃ e, (process input_file output_file (some fl) parameters db locale
        resource env st).2 = .error (.wrapped e) := by
  unfold process
  rw [if_neg hin]
  simp only [hfl, Bool.false_eq_true, if_false]
  split
  · right
    exact ⟨_, rfl⟩
  · exact finishProc_cases _

/-- C2 (counterexample): the claim says an empty format sequence fails
with InvalidFormat before any engine call, but `any([])` is `False`, so
the empty list passes `process`'s validation: a concrete call with
`format_list=[]` returns 0 and the engine `fill` call does happen. -/
theorem c2_empty_format_list_passes :
    (process "rep.jrxml" "" (some []) [] [] "pt_BR" "" penvOk st0).2 = .ok 0
  ∧ Ev.reportFill ∈
      (process "rep.jrxml" "" (some []) [] [] "pt_BR" "" penvOk st0).1.trace := by
  constructor
  · rfl
  · decide

/-- C2 (amended): in `process`, a non-list `format_list` fails with
InvalidFormat (`'format_list' value is not list!`), a list containing a
value outside the format enum fails with InvalidFormat, both before any
engine call (the returned state is the input state unchanged); and any
list — the empty list included — whose elements all belong to the enum
passes validation: every error a valid-format call can produce is a
wrapped (`'Error: %s'`) engine-stage error, never a validation error. -/
theorem c2_format_validation (input_file output_file : String)
    (fl : List String) (parameters : List (String × String)) (db : PyDict)
    (locale resource : String) (env : ProcEnv) (st : St)
    (hin : input_file ≠ "") :
    (process input_file output_file none parameters db locale resource env st
       = (st, .error .formatListNotList))
  ∧ ((fl.any (fun k => !(FORMATS.contains k))) = true →
       process input_file output_file (some fl) parameters db locale resource
           env st
         = (st, .error .invalidFormat))
  ∧ ((fl.any (fun k => !(FORMATS.contains k))) = false →
       ∀ e, (process input_file output_file (some fl) parameters db locale
           resource env st).2 = .error e → ∃ e0, e = .wrapped e0) := by
  refine ⟨?_, ?_, ?_⟩
  · unfold process
    rw [if_neg hin]
  · intro h
    unfold process
    rw [if_neg hin]
    simp only [h, eq_self_iff_true, if_true]
  · intro h e he
    rcases process_after_validation input_file output_file fl parameters db
        locale resource env st hin h with h1 | ⟨e0, h1⟩
    · rw [h1] at he
      cases he
    · rw [h1] at he
      injection he with h2
      exact ⟨e0, h2.symm⟩

/-- C2 (witness). -/
theorem c2_format_validation_witness :
    process "rep.jrxml" "" (some ["doc"]) [] [] "pt_BR" "" penvOk st0
      = (st0, .error .invalidFormat) := by
  exact (c2_format_validation "rep.jrxml" "" ["doc"] [] [] "pt_BR" "" penvOk
    st0 (by decide)).2.1 (by decide)

theorem setOptField_dbPort (d : PyDict) (k : String)
    (f : Config → PyVal → Config) (c : Config)
    (hf : ∀ c2 v, (f c2 v).dbPort = c2.dbPort) :
    (setOptField d k f c).dbPort = c.dbPort := by
  unfold setOptField
  cases dget d k with
  | none => rfl
  | some v => exact hf c v

theorem csvFirstRowSet_dbPort (c : Config) :
    ({ c with csvFirstRow := some true } : Config).dbPort = c.dbPort := rfl

theorem processConnFieldsRest_dbPort (c : Config) (db : PyDict) :
    (processConnFieldsRest c db).dbPort = c.dbPort := by
  simp only [processConnFieldsRest]
  rw [setOptField_dbPort db "csv_charset"
      (fun c v => { c with csvCharset := some v }) _ (fun c2 v => rfl),
    setOptField_dbPort db "csv_field_del"
      (fun c v => { c with csvFieldDel := some v }) _ (fun c2 v => rfl),
    setOptField_dbPort db "csv_record_del"
      (fun c v => { c with csvRecordDel := some v }) _ (fun c2 v => rfl),
    setOptField_dbPort db "csv_columns"
      (fun c v => { c with csvColumns := some v }) _ (fun c2 v => rfl)]
  split
  · rw [csvFirstRowSet_dbPort,
      setOptField_dbPort db "jsonql_query"
        (fun c v => { c with jsonqlQuery := some v }) _ (fun c2 v => rfl),
      setOptField_dbPort db "json_query"
        (fun c v => { c with jsonQuery := some v }) _ (fun c2 v => rfl),
      setOptField_dbPort db "data_file"
        (fun c v => { c with dataFile := some v }) _ (fun c2 v => rfl),
      setOptField_dbPort db "xml_xpath"
        (fun c v => { c with xmlXpath := some v }) _ (fun c2 v => rfl),
      setOptField_dbPort db "db_sid"
        (fun c v => { c with dbSid := some v }) _ (fun c2 v => rfl),
      setOptField_dbPort db "jdbc_dir"
        (fun c v => { c with jdbcDir := some v }) _ (fun c2 v => rfl)]
  · rw [setOptField_dbPort db "jsonql_query"
        (fun c v => { c with jsonqlQuery := some v }) _ (fun c2 v => rfl),
      setOptField_dbPort db "json_query"
        (fun c v => { c with jsonQuery := some v }) _ (fun c2 v => rfl),
      setOptField_dbPort db "data_file"
        (fun c v => { c with dataFile := some v }) _ (fun c2 v => rfl),
      setOptField_dbPort db "xml_xpath"
        (fun c v => { c with xmlXpath := some v }) _ (fun c2 v => rfl),
      setOptField_dbPort db "db_sid"
        (fun c v => { c with dbSid := some v }) _ (fun c2 v => rfl),
      setOptField_dbPort db "jdbc_dir"
        (fun c v => { c with jdbcDir := some v }) _ (fun c2 v => rfl)]

theorem processConnFields_port_ok (c : Config) (db : PyDict) (v : PyVal)
    (n : Int) (hport : dget db "port" = some v) (hn : pyIntOf v = some n) :
    ∃ c2, processConnFields c db = .ok c2 ∧ c2.dbPort = some n := by
  unfold processConnFields
  simp only [hport, hn]
  refine ⟨_, rfl, ?_⟩
  rw [processConnFieldsRest_dbPort]

theorem processBuildConfig_port (input_file output_file : String)
    (fl : List String) (parameters : List (String × String)) (db : PyDict)
    (locale : String) (v : PyVal) (n : Int)
    (hport : dget db "port" = some v) (hn : pyIntOf v = some n) :
    ∃ c2, processBuildConfig input_file output_file fl parameters db locale
        = .ok c2 ∧ c2.dbPort = some n := by
  simp only [processBuildConfig]
  rw [if_pos (dget_pos db "port" v hport)]
  exact processConnFields_port_ok _ db v n hport hn

/-- C7 (confirmed): in `process`, when the connection dictionary has a
`port` key, its value is passed through `int()`: if it parses, the
parsed integer is set on the configuration (`setDbPort`) — the
configuration handed to the engine's `Report` constructor carries
`dbPort = some n` — and if it does not parse, the `ValueError` aborts
the call wrapped by the outer handler (the spec's InvalidArgument) with
the returned state equal to the input state, so no engine fill/export
was invoked. -/
theorem c7_port_int_parse (input_file output_file : String)
    (fl : List String) (parameters : List (String × String)) (db : PyDict)
    (locale resource : String) (env : ProcEnv) (st : St)
    (hin : input_file ≠ "")
    (hfl : (fl.any (fun k => !(FORMATS.contains k))) = false)
    (v : PyVal) (hport : dget db "port" = some v) :
    (pyIntOf v = none →
       process input_file output_file (some fl) parameters db locale resource
           env st
         = (st, .error (.wrapped (.intParseFailed v))))
  ∧ (∀ n : Int, pyIntOf v = some n →
       (∀ c, ∃ c2, processConnFields c db = .ok c2 ∧ c2.dbPort = some n)
     ∧ ∃ c2, c2.dbPort = some n ∧
         Ev.reportNew c2 ∈ (process input_file output_file (some fl)
             parameters db locale resource env st).1.trace) := by
  have hdb : db.length > 0 := dget_pos db "port" v hport
  constructor
  · intro hbad
    have hcf : ∀ c, processConnFields c db = .error (.intParseFailed v) := by
      intro c
      unfold processConnFields
      simp [hport, hbad]
    have hbuild : processBuildConfig input_file output_file fl parameters db
        locale = .error (.intParseFailed v) := by
      simp only [processBuildConfig]
      rw [if_pos hdb, hcf]
    unfold process
    rw [if_neg hin]
    simp only [hfl, Bool.false_eq_true, if_false, hbuild]
  · intro n hn
    refine ⟨fun c => processConnFields_port_ok c db v n hport hn, ?_⟩
    obtain ⟨c2, hc2, hp⟩ := processBuildConfig_port input_file output_file fl
      parameters db locale v n hport hn
    unfold process
    rw [if_neg hin]
    simp only [hfl, Bool.false_eq_true, if_false, hc2]
    refine ⟨c2, hp, ?_⟩
    rw [finishProc_fst]
    obtain ⟨mid, htr, -⟩ := (processPhase_spec env fl (emit (Ev.reportNew c2)
      (procResourceAdds resource env (emit (Ev.classpathAdd JDBC_FILE) st)))).2.2
    rw [htr]
    simp [emit]

/-- C7 (witness). -/
theorem c7_port_int_parse_witness :
    (∃ c2, processConnFields Config.init
        [("driver", PyVal.str "postgres"), ("port", PyVal.str "5432")]
        = .ok c2 ∧ c2.dbPort = some 5432)
  ∧ process "rep.jrxml" "" (some ["pdf"]) []
        [("driver", PyVal.str "postgres"),
         ("port", PyVal.str "not-a-number")] "pt_BR" "" penvOk st0
      = (st0, .error (.wrapped (.intParseFailed
          (PyVal.str "not-a-number")))) := by
  constructor
  · exact ((c7_port_int_parse "rep.jrxml" "" ["pdf"] []
      [("driver", PyVal.str "postgres"), ("port", PyVal.str "5432")]
      "pt_BR" "" penvOk st0 (by decide) (by decide) (PyVal.str "5432")
      (by decide)).2 5432 (by decide)).1 Config.init
  · exact (c7_port_int_parse "rep.jrxml" "" ["pdf"] []
      [("driver", PyVal.str "postgres"), ("port", PyVal.str "not-a-number")]
      "pt_BR" "" penvOk st0 (by decide) (by decide)
      (PyVal.str "not-a-number") (by decide)).1 (by decide)

/-- C8 (confirmed): in `process`, the runtime's input and output stream
handles are saved before the fill+export phase, the output stream is
redirected to a freshly constructed in-memory stream for that phase, and
on every exit path — success, a raising `fill`, a raising or
unimplemented export — the output stream is flushed and both original
handles are restored.  First conjunct: a full `process` call never
changes the runtime's current input/output handles, whatever its
arguments, oracle and outcome.  Second conjunct: the phase itself emits
exactly `setOut fresh`, then only fill/export engine calls, then
`flushOut fresh`, `setIn saved-in`, `setOut saved-out`. -/
theorem c8_stream_redirect_restore :
    (∀ (input_file output_file : String) (format_list : Option (List String))
       (parameters : List (String × String)) (db : PyDict)
       (locale resource : String) (env : ProcEnv) (st : St),
       (process input_file output_file format_list parameters db locale
           resource env st).1.sys.inH = st.sys.inH ∧
       (process input_file output_file format_list parameters db locale
           resource env st).1.sys.outH = st.sys.outH)
  ∧ (∀ (env : ProcEnv) (fl : List String) (st : St),
       (processPhase env fl st).1.sys.inH = st.sys.inH ∧
       (processPhase env fl st).1.sys.outH = st.sys.outH ∧
       ∃ mid, (processPhase env fl st).1.trace =
           Ev.setOut st.sys.outH :: Ev.setIn st.sys.inH ::
             Ev.flushOut st.sys.nextH ::
               (mid ++ Ev.setOut st.sys.nextH :: st.trace) ∧
         ∀ e ∈ mid, e = Ev.reportFill ∨ ∃ f, e = Ev.reportExport f) := by
  constructor
  · intro input_file output_file format_list parameters db locale resource env st
    unfold process
    by_cases hin : input_file = ""
    · rw [if_pos hin]
      exact ⟨rfl, rfl⟩
    rw [if_neg hin]
    cases format_list with
    | none => exact ⟨rfl, rfl⟩
    | some fl =>
      cases hf : (fl.any (fun k => !(FORMATS.contains k))) with
      | true =>
        simp only [hf, eq_self_iff_true, if_true]
        exact ⟨trivial, trivial⟩
      | false =>
        simp only [hf, Bool.false_eq_true, if_false]
        split
        · exact ⟨rfl, rfl⟩
        · next cfg heq =>
          rw [finishProc_fst]
          have hres := procResourceAdds_sys resource env
            (emit (Ev.classpathAdd JDBC_FILE) st)
          have hph := processPhase_spec env fl (emit (Ev.reportNew cfg)
            (procResourceAdds resource env (emit (Ev.classpathAdd JDBC_FILE) st)))
          constructor
          · rw [hph.1, emit_sys, hres]
            rfl
          · rw [hph.2.1, emit_sys, hres]
            rfl
  · intro env fl st
    exact processPhase_spec env fl st

/-- C8 (witness). -/
theorem c8_stream_redirect_restore_witness :
    (process "rep.jrxml" "" (some ["pdf"]) [] [] "pt_BR" "" penvOk
        st0).1.sys.inH = st0.sys.inH ∧
    (process "rep.jrxml" "" (some ["pdf"]) [] [] "pt_BR" "" penvOk
        st0).1.sys.outH = st0.sys.outH := by
  exact c8_stream_redirect_restore.1 "rep.jrxml" "" (some ["pdf"]) [] []
    "pt_BR" "" penvOk st0

/-- C9 (confirmed): `compile('')` fails with InvalidArgument
(`'No input file!'`) leaving the state untouched — in particular the
engine's compile call is never made; for a non-empty path the engine
compile is invoked and the runtime's standard output is flushed whether
it succeeds or raises (the final trace is always
`flushOut; compileToFile`), a failure is wrapped as CompileError
(`NameError('Error: %s')`) carrying the original message, and success
returns 0. -/
theorem c9_compile_contract (report : String) (env : CompileEnv) (st : St)
    (h : report ≠ "") :
    compileRun "" env st = (st, .error .noInputFile)
  ∧ (compileRun report env st).1
      = { sys := st.sys,
          trace := Ev.flushOut st.sys.outH :: Ev.compileToFile report ::
            st.trace }
  ∧ (env.compileToFileFails = none → (compileRun report env st).2 = .ok 0)
  ∧ (∀ msg, env.compileToFileFails = some msg →
       (compileRun report env st).2 = .error (.wrapped (.engineError msg))) := by
  refine ⟨rfl, ?_, ?_, ?_⟩
  · unfold compileRun
    rw [if_neg h]
    cases hc : env.compileToFileFails <;> rfl
  · intro hc
    unfold compileRun
    rw [if_neg h, hc]
  · intro msg hc
    unfold compileRun
    rw [if_neg h, hc]

/-- C9 (witness). -/
theorem c9_compile_contract_witness :
    (compileRun "rep.jrxml" { compileToFileFails := some "boom" } st0).2
      = .error (.wrapped (.engineError "boom")) := by
  exact (c9_compile_contract "rep.jrxml" { compileToFileFails := some "boom" }
    st0 (by decide)).2.2.2 "boom" rfl

theorem jsonFillPhase_not_jsonql (config : Config) (connection : PyDict)
    (fileOut : Option String) (outputFile : String) (env : JEnv) (st : St)
    (h : config.dbType ≠ some DsType.jsonql) :
    jsonFillPhase config connection fileOut outputFile env st
      = ((if env.hasAskFilter then emit .promptParams st else st),
         .error (.wrapped .invalidJsonInput)) := by
  cases ha : env.hasAskFilter <;>
    simp only [jsonFillPhase, ha, Bool.false_eq_true, if_false,
      eq_self_iff_true, if_true] <;>
    rw [if_neg h]

theorem process_json_empty_conn (input_file output_file : String)
    (fl : List String) (parameters : List (String × String))
    (locale resource : String) (env : JEnv) (st : St)
    (hin : input_file ≠ "")
    (hfl : (fl.any (fun k => !(pyStrIn k FORMATS_JSON))) = false) :
    ∃ e, (process_json input_file output_file (some fl) parameters []
        locale resource env st).2 = .error (.wrapped (.wrapped e)) := by
  unfold process_json
  rw [if_neg hin]
  simp only [hfl, Bool.false_eq_true, if_false]
  simp only [jsonConnBlock, List.length_nil, gt_iff_lt, lt_self_iff_false,
    if_false, wrapStep]
  cases hc : env.compileToFileFails with
  | some m =>
    simp only [hc, compileRun]
    rw [if_neg hin]
    simp only [wrapStep]
    exact ⟨.engineError m, rfl⟩
  | none =>
    simp only [hc, compileRun]
    rw [if_neg hin]
    simp only [wrapStep]
    rw [jsonFillPhase_not_jsonql _ _ _ _ _ _ (by simp [jsonDriverMap, dget])]
    simp only [wrapStep]
    exact ⟨.invalidJsonInput, rfl⟩

/-- C1 (code evidence): `_FORMATS_JSON` is the string `'pdf'` (the source
writes `('pdf')`, not the tuple `('pdf',)`), so `process_json`'s
validation is a Python substring test: the format `'pd'` — a proper
substring of `'pdf'`, not equal to it — passes validation, and a full
`process_json` call with `format_list=['pd']` runs to completion
returning 0 instead of failing with InvalidFormat. -/
theorem c1_format_json_substring_accepts :
    pyStrIn "pd" FORMATS_JSON = true
  ∧ "pd" ≠ "pdf"
  ∧ (process_json "rep.jrxml" "" (some ["pd"]) [] connJsonql "" "" jenvOk
      st0).2 = .ok 0 := by
  refine ⟨rfl, by decide, rfl⟩

/-- C3 (confirmed): in `process_json`'s fill phase, any configuration
whose data-source type is not the `jsonql` constant — the `json`
constant included — raises `NameError('Invalid json input!')`
(UnsupportedDataSource) without any fill/export engine call (the state
is unchanged apart from the optional parameter prompt); a concrete call
with `driver='json'` and a data file surfaces it doubly wrapped by the
fill handler and the outer handler; and a `driver='jsonql'` connection
does reach `fillReport` on the derived `.jasper` path and
`exportReportToPdfFile` on the derived `.pdf` path, returning 0. -/
theorem c3_jsonql_only_fill (config : Config) (connection : PyDict)
    (fileOut : Option String) (outputFile : String) (env : JEnv) (st : St) :
    (config.dbType ≠ some DsType.jsonql →
       jsonFillPhase config connection fileOut outputFile env st
         = ((if env.hasAskFilter then emit .promptParams st else st),
            .error (.wrapped .invalidJsonInput)))
  ∧ (process_json "rep.jrxml" "" (some ["pdf"]) []
        [("driver", PyVal.str "json"), ("data_file", PyVal.str "d.json")]
        "" "" jenvOk st0).2
      = .error (.wrapped (.wrapped .invalidJsonInput))
  ∧ (process_json "rep.jrxml" "" (some ["pdf"]) [] connJsonql "" ""
        jenvOk st0).2 = .ok 0
  ∧ Ev.fillReport "rep.jasper" ∈
      (process_json "rep.jrxml" "" (some ["pdf"]) [] connJsonql "" ""
        jenvOk st0).1.trace
  ∧ Ev.exportPdfFile "rep.pdf" ∈
      (process_json "rep.jrxml" "" (some ["pdf"]) [] connJsonql "" ""
        jenvOk st0).1.trace := by
  have htr : (process_json "rep.jrxml" "" (some ["pdf"]) [] connJsonql "" ""
      jenvOk st0).1.trace
    = [Ev.exportPdfFile "rep.pdf", Ev.fillReport "rep.jasper",
       Ev.getJsonQLDataSource, Ev.flushOut 1,
       Ev.compileToFile "rep.jrxml"] := rfl
  refine ⟨jsonFillPhase_not_jsonql config connection fileOut outputFile env st,
    rfl, rfl, ?_, ?_⟩ <;> rw [htr] <;> simp

/-- C3 (witness). -/
theorem c3_jsonql_only_fill_witness :
    jsonFillPhase { Config.init with dbType := some DsType.json } [] none
      "out.pdf" jenvOk st0 = (st0, .error (.wrapped .invalidJsonInput)) := by
  have h := (c3_jsonql_only_fill { Config.init with dbType := some DsType.json }
    [] none "out.pdf" jenvOk st0).1 (by decide)
  simpa using h

/-- C4 (counterexample): the claim says a present but unrecognized
driver value results in the `none` constant being set, but the source's
`if/elif` chain has no final `else`: with `driver='postgres'` no
`setDbType` call is made at all, so the data-source type is left unset
(`none` here meaning "no setter call"), not set to the `dnone`
constant. -/
theorem c4_unrecognized_driver_not_set :
    (jsonDriverMap Config.init [("driver", PyVal.str "postgres")]).dbType
      = none
  ∧ (jsonDriverMap Config.init [("driver", PyVal.str "postgres")]).dbType
      ≠ some DsType.dnone := by
  refine ⟨rfl, by decide⟩

/-- C4 (amended): in `process_json`, `driver='json'` sets the `json`
constant, `driver='jsonql'` sets the `jsonql` constant, an absent
`driver` key sets the `none` constant, and any other present driver
value makes no `setDbType` call, leaving the configuration's data-source
type exactly as it was. -/
theorem c4_driver_map_amended (config : Config) (connection : PyDict) :
    (dget connection "driver" = some (.str "json") →
       (jsonDriverMap config connection).dbType = some DsType.json)
  ∧ (dget connection "driver" = some (.str "jsonql") →
       (jsonDriverMap config connection).dbType = some DsType.jsonql)
  ∧ (dget connection "driver" = none →
       (jsonDriverMap config connection).dbType = some DsType.dnone)
  ∧ (∀ v, dget connection "driver" = some v →
       v ≠ .str "json" → v ≠ .str "jsonql" →
       (jsonDriverMap config connection).dbType = config.dbType) := by
  refine ⟨?_, ?_, ?_, ?_⟩
  · intro h
    simp [jsonDriverMap, h]
  · intro h
    simp [jsonDriverMap, h]
  · intro h
    simp [jsonDriverMap, h]
  · intro v h hj hq
    simp [jsonDriverMap, h, hj, hq]

/-- C4 (witness). -/
theorem c4_driver_map_witness :
    (jsonDriverMap Config.init [("driver", PyVal.str "jsonql")]).dbType
      = some DsType.jsonql := by
  exact (c4_driver_map_amended Config.init
    [("driver", PyVal.str "jsonql")]).2.1 (by decide)

/-- C6 (confirmed): in `process_json`, a non-empty connection dictionary
with neither `data_file` nor `url_file` fails with
`NameError('No data sources were reported')` (MissingDataSource),
wrapped once by the outer handler, before any engine call (the state is
returned unchanged); and with an entirely empty connection the call
never produces that error, whatever the oracle does. -/
theorem c6_missing_data_source (input_file output_file : String)
    (fl : List String) (parameters : List (String × String))
    (connection : PyDict) (locale resource : String) (env : JEnv) (st : St)
    (hin : input_file ≠ "")
    (hfl : (fl.any (fun k => !(pyStrIn k FORMATS_JSON))) = false) :
    (connection ≠ [] → dhas connection "data_file" = false →
     dhas connection "url_file" = false →
       process_json input_file output_file (some fl) parameters connection
         locale resource env st = (st, .error (.wrapped .noDataSources)))
  ∧ ((process_json input_file output_file (some fl) parameters []
        locale resource env st).2 ≠ .error (.wrapped .noDataSources)) := by
  constructor
  · intro hc1 hdf huf
    have hlen : connection.length > 0 := by
      cases connection with
      | nil => exact absurd rfl hc1
      | cons a l => simp
    have hb : ∀ cfg, jsonConnBlock connection env cfg st
        = (st, .error .noDataSources) := by
      intro cfg
      unfold jsonConnBlock
      rw [if_pos hlen, if_pos (by simp [hdf, huf])]
    unfold process_json
    rw [if_neg hin]
    simp only [hfl, Bool.false_eq_true, if_false, hb, wrapStep]
  · obtain ⟨e, he⟩ := process_json_empty_conn input_file output_file fl
      parameters locale resource env st hin hfl
    rw [he]
    simp

/-- C6 (witness). -/
theorem c6_missing_data_source_witness :
    process_json "rep.jrxml" "" (some ["pdf"]) []
        [("driver", PyVal.str "jsonql")] "" "" jenvOk st0
      = (st0, .error (.wrapped .noDataSources)) := by
  exact (c6_missing_data_source "rep.jrxml" "" ["pdf"] []
    [("driver", PyVal.str "jsonql")] "" "" jenvOk st0 (by decide)
    (by decide)).1 (by decide) (by decide) (by decide)

/-- C5 (confirmed): in `process_json`'s `url_file` branch, a string
`url_method` outside GET/POST/PUT raises
`NameError('Invalid method request!')` — the InvalidArgument of the spec
— before any HTTP request, and like every other failure of the
fetch-and-materialize sequence it is surfaced wrapped as
`NameError('Error request: %s')` (RemoteFetchError): every error this
block produces is an `errorRequest`.  With a valid method the request is
sent; a response with status ≠ 200 fails with
`'Error request status code: <code>'` carrying the code; a 200 response
has its body parsed and re-serialized (`env.jsonParse`), written to
`data_report.json` inside the scoped temporary directory, and that path
set as the configuration's data file.  A concrete `process_json` call
against a 404 endpoint surfaces
`wrapped (errorRequest (requestStatusCode 404))`. -/
theorem c5_remote_fetch (connection : PyDict) (config : Config) (env : JEnv)
    (st : St) (m : String)
    (hm : dget connection "url_method" = some (.str m)) :
    (m ∉ METHODS →
       fetchBlock connection env config st
         = (st, .error (.errorRequest .invalidMethodRequest)))
  ∧ (∀ st2 e, fetchBlock connection env config st = (st2, .error e) →
       ∃ e0, e = .errorRequest e0)
  ∧ (∀ url, m ∈ METHODS →
       dget connection "url_file" = some url →
       dhas connection "url_data_post" = false →
       (∀ code, env.sendResult = some code → code ≠ 200 →
          fetchBlock connection env config st
            = (emit (.httpSend m url (.dict []) (hdrOf connection)
                (paramsOf connection)) st,
               .error (.errorRequest (.requestStatusCode code))))
     ∧ (∀ body, env.sendResult = some 200 → env.jsonParse = some body →
          fetchBlock connection env config st
            = (emit (.writeFile (pyJoin env.tmpDir "data_report.json") body)
                (emit (.httpSend m url (.dict []) (hdrOf connection)
                  (paramsOf connection)) st),
               .ok { config with
                 dataFile := some (.str (pyJoin env.tmpDir "data_report.json")) })))
  ∧ (process_json "rep.jrxml" "" (some ["pdf"]) [] connUrl "" "" jenv404
        st0).2 = .error (.wrapped (.errorRequest (.requestStatusCode 404))) := by
  refine ⟨?_, ?_, ?_, rfl⟩
  · intro hmb
    simp [fetchBlock, fetchCore, hm, hmb]
  · intro st2 e heq
    unfold fetchBlock at heq
    split at heq
    · injection heq with h1 h2
      cases h2
    · injection heq with h1 h2
      injection h2 with h3
      exact ⟨_, h3.symm⟩
  · intro url hmok hurl hpost
    constructor
    · intro code hsend hcode
      simp [fetchBlock, fetchCore, hm, hmok, dataOf, hpost, hurl, hsend, hcode]
    · intro body hsend hjson
      simp [fetchBlock, fetchCore, hm, hmok, dataOf, hpost, hurl, hsend, hjson]

/-- C5 (witness). -/
theorem c5_remote_fetch_witness :
    fetchBlock [("url_file", PyVal.str "http://x"),
        ("url_method", PyVal.str "DELETE")] jenvOk Config.init st0
      = (st0, .error (.errorRequest .invalidMethodRequest)) := by
  exact (c5_remote_fetch [("url_file", PyVal.str "http://x"),
    ("url_method", PyVal.str "DELETE")] Config.init jenvOk st0 "DELETE"
    (by decide)).1 (by decide)

/-- C10 (confirmed): in the remote fetch, the request body is taken from
`url_data` only when the distinct key `url_data_post` is present: with
both keys the request is sent with the `url_data` value as body; with
`url_data_post` present and `url_data` absent the sequence fails with
`KeyError('url_data')` wrapped as RemoteFetchError, and no request is
sent; without `url_data_post` the request body is the empty dict, even
when `url_data` is present. -/
theorem c10_url_data_post (connection : PyDict) (config : Config) (env : JEnv)
    (st : St) (m : String) (url : PyVal)
    (hm : dget connection "url_method" = some (.str m))
    (hmok : m ∈ METHODS)
    (hurl : dget connection "url_file" = some url) :
    (∀ v, dget connection "url_data_post" = some v →
       ∀ w, dget connection "url_data" = some w →
       Ev.httpSend m url w (hdrOf connection) (paramsOf connection)
         ∈ (fetchBlock connection env config st).1.trace)
  ∧ (dhas connection "url_data_post" = true →
     dget connection "url_data" = none →
       fetchBlock connection env config st
         = (st, .error (.errorRequest (.keyError "url_data"))))
  ∧ (dhas connection "url_data_post" = false →
       Ev.httpSend m url (.dict []) (hdrOf connection) (paramsOf connection)
         ∈ (fetchBlock connection env config st).1.trace) := by
  refine ⟨?_, ?_, ?_⟩
  · intro v hv w hw
    have hpost : dhas connection "url_data_post" = true := by
      simp [dhas, hv]
    cases hsend : env.sendResult with
    | none =>
      simp [fetchBlock, fetchCore, hm, hmok, dataOf, hpost, hw, hurl, hsend,
        emit]
    | some code =>
      by_cases hc : code = 200
      · cases hjson : env.jsonParse with
        | none =>
          simp [fetchBlock, fetchCore, hm, hmok, dataOf, hpost, hw, hurl,
            hsend, hc, hjson, emit]
        | some body =>
          simp [fetchBlock, fetchCore, hm, hmok, dataOf, hpost, hw, hurl,
            hsend, hc, hjson, emit]
      · simp [fetchBlock, fetchCore, hm, hmok, dataOf, hpost, hw, hurl,
          hsend, hc, emit]
  · intro hpost hnd
    simp [fetchBlock, fetchCore, hm, hmok, dataOf, hpost, hnd, hurl]
  · intro hpost
    cases hsend : env.sendResult with
    | none =>
      simp [fetchBlock, fetchCore, hm, hmok, dataOf, hpost, hurl, hsend, emit]
    | some code =>
      by_cases hc : code = 200
      · cases hjson : env.jsonParse with
        | none =>
          simp [fetchBlock, fetchCore, hm, hmok, dataOf, hpost, hurl,
            hsend, hc, hjson, emit]
        | some body =>
          simp [fetchBlock, fetchCore, hm, hmok, dataOf, hpost, hurl,
            hsend, hc, hjson, emit]
      · simp [fetchBlock, fetchCore, hm, hmok, dataOf, hpost, hurl,
          hsend, hc, emit]

/-- C10 (witness). -/
theorem c10_url_data_post_witness :
    fetchBlock [("url_file", PyVal.str "http://x"),
        ("url_method", PyVal.str "GET"), ("url_data_post", PyVal.str "1")]
      jenvOk Config.init st0
      = (st0, .error (.errorRequest (.keyError "url_data"))) := by
  exact (c10_url_data_post [("url_file", PyVal.str "http://x"),
    ("url_method", PyVal.str "GET"), ("url_data_post", PyVal.str "1")]
    Config.init jenvOk st0 "GET" (PyVal.str "http://x") (by decide)
    (by decide) (by decide)).2.1 (by decide) (by decide)
